import Mathlib

/-!
Verification of the data-fetching and loading/error-state coordination layer
of the product-catalog application: the `useProduct` hook
(src/hooks/useProduct.ts), the product route page
(src/routes/products/$productId.tsx) and the consumer components
(`ProductInfo`, `ProductImage`).

JavaScript numbers are modelled as exact rationals (`ℚ`), abstracting
IEEE-754 rounding; every concrete value appearing in a theorem below is
exactly representable as a float64, so the abstraction is exact at every
point where a theorem is instantiated.
-/

namespace ProductApp

/-! ## JavaScript number values

A JavaScript number as observed by this layer: NaN, the two infinities,
or a finite value (modelled exactly as a rational). -/

inductive JSNum where
  | nan
  | posInf
  | negInf
  | num (q : ℚ)
deriving DecidableEq

/-- JavaScript truthiness of a number (`!!x`): `NaN`, `0` and `-0` are
falsy, every other number (infinities included) is truthy. -/
def JSNum.truthy : JSNum → Bool
  | .nan => false
  | .posInf => true
  | .negInf => true
  | .num q => decide (q ≠ 0)

/-- Whether a JavaScript number is a finite integer value. -/
def JSNum.isIntegral : JSNum → Bool
  | .num q => decide (q.den = 1)
  | _ => false

/-! ## The String-to-Number conversion (ECMA-262 `Number(string)`)

`Number(s)` trims whitespace, maps the empty remainder to `0`, accepts an
optionally signed decimal literal or `Infinity`, an unsigned hex / octal /
binary literal, and yields `NaN` for everything else. -/

/-- ECMAScript whitespace and line terminators recognised by `Number()`
(ASCII subset: space, tab, LF, VT, FF, CR). -/
def isJsWs (c : Char) : Bool :=
  c == ' ' || c == '\t' || c == '\n' || c == '\x0b' || c == '\x0c' || c == '\r'

/-- Strip leading and trailing JavaScript whitespace. -/
def jsTrim (cs : List Char) : List Char :=
  ((cs.dropWhile isJsWs).reverse.dropWhile isJsWs).reverse

/-- Numeric value of a decimal digit character. -/
def digitVal (c : Char) : ℕ := c.toNat - '0'.toNat

/-- Value of a list of decimal digit characters (most significant first). -/
def digitsToNat (cs : List Char) : ℕ :=
  cs.foldl (fun a c => 10 * a + digitVal c) 0

/-- Hexadecimal digit recogniser. -/
def jsIsHexDigit (c : Char) : Bool :=
  c.isDigit || ('a' ≤ c && c ≤ 'f') || ('A' ≤ c && c ≤ 'F')

/-- Value of a hexadecimal digit character. -/
def hexDigitVal (c : Char) : ℕ :=
  if c.isDigit then digitVal c
  else if 'a' ≤ c && c ≤ 'f' then c.toNat - 'a'.toNat + 10
  else c.toNat - 'A'.toNat + 10

/-- Octal digit recogniser. -/
def jsIsOctDigit (c : Char) : Bool := '0' ≤ c && c ≤ '7'

/-- Binary digit recogniser. -/
def jsIsBinDigit (c : Char) : Bool := c == '0' || c == '1'

/-- Signed exponent part of a decimal literal: `[+|-] digits`, whole match. -/
def parseSignedInt (cs : List Char) : Option ℤ :=
  match cs with
  | '+' :: ds => if !ds.isEmpty && ds.all Char.isDigit then some (digitsToNat ds) else none
  | '-' :: ds => if !ds.isEmpty && ds.all Char.isDigit then some (-(digitsToNat ds : ℤ)) else none
  | ds => if !ds.isEmpty && ds.all Char.isDigit then some (digitsToNat ds) else none

/-- Mantissa of a decimal literal: `digits [. digits]` or `. digits`,
whole match. The value is `n / 10 ^ scale` for the returned pair `(n, scale)`. -/
def parseMantissa (cs : List Char) : Option (ℕ × ℕ) :=
  match cs.span (fun c => !(c == '.')) with
  | (ip, []) =>
    if !ip.isEmpty && ip.all Char.isDigit then some (digitsToNat ip, 0) else none
  | (ip, _ :: fp) =>
    if (!ip.isEmpty || !fp.isEmpty) && ip.all Char.isDigit && fp.all Char.isDigit then
      some (digitsToNat (ip ++ fp), fp.length)
    else none

/-- Exact rational value `n * 10 ^ e` for a natural mantissa and integer exponent. -/
def decValue (n : ℕ) (e : ℤ) : ℚ :=
  if 0 ≤ e then mkRat (n * 10 ^ e.toNat) 1 else mkRat n (10 ^ (-e).toNat)

/-- Unsigned decimal literal with optional exponent: `mantissa [e|E signed-digits]`,
whole match, exact rational value. -/
def parseUnsignedDecCore (cs : List Char) : Option ℚ :=
  match cs.span (fun c => !(c == 'e' || c == 'E')) with
  | (m, []) => (parseMantissa m).map (fun p => decValue p.1 (-(p.2 : ℤ)))
  | (m, _ :: ex) => do
    let p ← parseMantissa m
    let ev ← parseSignedInt ex
    some (decValue p.1 (ev - (p.2 : ℤ)))

/-- Optionally negated `Infinity` or unsigned decimal literal. -/
def jsUnsigned (neg : Bool) (cs : List Char) : JSNum :=
  if cs = "Infinity".data then (if neg then .negInf else .posInf)
  else
    match parseUnsignedDecCore cs with
    | some q => .num (if neg then -q else q)
    | none => .nan

/-- Unsigned radix literal body (hex, octal or binary). -/
def jsRadix (r : ℕ) (ok : Char → Bool) (val : Char → ℕ) (cs : List Char) : JSNum :=
  if !cs.isEmpty && cs.all ok then
    .num (mkRat (cs.foldl (fun a c => r * a + val c) 0) 1)
  else .nan

/-- The `StrNumericLiteral` dispatch of `Number()` on an already-trimmed
character list: the empty remainder is `0`; a sign admits only a decimal
literal or `Infinity`; a `0x`/`0X`/`0o`/`0O`/`0b`/`0B` marker admits an
unsigned radix literal; everything else is an unsigned decimal literal or
`Infinity`. -/
def jsNumberList (cs : List Char) : JSNum :=
  match cs with
  | [] => .num 0
  | c :: rest =>
    if c == '+' then jsUnsigned false rest
    else if c == '-' then jsUnsigned true rest
    else
      match rest with
      | [] => jsUnsigned false (c :: rest)
      | m :: rest' =>
        if c == '0' && (m == 'x' || m == 'X') then jsRadix 16 jsIsHexDigit hexDigitVal rest'
        else if c == '0' && (m == 'o' || m == 'O') then jsRadix 8 jsIsOctDigit digitVal rest'
        else if c == '0' && (m == 'b' || m == 'B') then jsRadix 2 jsIsBinDigit digitVal rest'
        else jsUnsigned false (c :: rest)

/-- The JavaScript `Number(string)` conversion used by
`const id = Number(productId)` in `useProduct` (src/hooks/useProduct.ts:7). -/
def jsNumber (s : String) : JSNum :=
  jsNumberList (jsTrim s.data)

example : jsNumber "0" = .num 0 := by decide
example : jsNumber "1" = .num 1 := by decide
example : jsNumber "01" = .num 1 := by decide
example : jsNumber "1.0" = .num 1 := by decide
example : jsNumber "1.5" = .num (mkRat 3 2) := by decide
example : jsNumber "abc" = .nan := by decide
example : jsNumber "" = .num 0 := by decide
example : jsNumber " 42 " = .num 42 := by decide
example : jsNumber "-2e3" = .num (-2000) := by decide
example : jsNumber "0x10" = .num 16 := by decide
example : jsNumber "-0x10" = .nan := by decide
example : jsNumber "Infinity" = .posInf := by decide
example : jsNumber "1.5x" = .nan := by decide
example : jsNumber "1e2e3" = .nan := by decide
example : jsNumber "." = .nan := by decide
example : jsNumber ".5" = .num (mkRat 1 2) := by decide
example : jsNumber "1." = .num 1 := by decide

/-! ## Number formatting: `Number.prototype.toFixed(2)`

Per ECMA-262, `x.toFixed(2)` falls back to `ToString(x)` (exponential
notation) when `|x| ≥ 10^21`; otherwise it renders the sign, then the
integer `n` closest to `100·|x|` (ties to the larger `n`, i.e.
`⌊100·|x| + 1/2⌋`) with a decimal point before its last two digits. -/

/-- Whether `|x| < 10^21`, the range in which `toFixed` uses fixed notation,
phrased on the reduced numerator and denominator so that it kernel-reduces. -/
def belowFixedBound (x : ℚ) : Prop := x.num.natAbs < 10 ^ 21 * x.den

instance (x : ℚ) : Decidable (belowFixedBound x) := Nat.decLt _ _

/-- The ECMA rounding step of `toFixed(2)`: the integer closest to
`100·|x|`, ties to the larger, i.e. `⌊100·|x| + 1/2⌋`, computed as
`⌊(200·|num(x)| + den(x)) / (2·den(x))⌋` in natural arithmetic. -/
def round2 (x : ℚ) : ℕ := (200 * x.num.natAbs + x.den) / (2 * x.den)

/-- Drop trailing `'0'` characters. -/
def stripTrailingZeros (ds : List Char) : List Char :=
  (ds.reverse.dropWhile (fun c => c == '0')).reverse

/-- ECMAScript exponential notation of a natural number with at least 22
digits: significant digits (trailing zeros stripped, decimal point after the
first digit when more than one remains) followed by `e+` and the exponent.
Faithful on the exact integer values that reach it in this development. -/
def expNotation (n : ℕ) : String :=
  let ds := (Nat.repr n).data
  let k := ds.length - 1
  let mstr :=
    match stripTrailingZeros ds with
    | [] => "0"
    | [d] => String.mk [d]
    | d :: rest => String.mk [d] ++ "." ++ String.mk rest
  mstr ++ "e+" ++ Nat.repr k

/-- `ToString(x)` for the `|x| ≥ 10^21` magnitudes reached from `toFixed`:
every float64 of that magnitude is an integer, rendered in exponential
notation. -/
def jsLargeToString (x : ℚ) : String :=
  (if x.num < 0 then "-" else "") ++ expNotation (x.num.natAbs / x.den)

/-- Fixed-notation body of `toFixed(2)`: the ECMA construction pads the
decimal digits of `n` to at least three and splits off the last two as the
fraction, which for `f = 2` is the digits of `n / 100`, a point, and the
two low digits of `n`. -/
def fixedFormat (sign : String) (n : ℕ) : String :=
  sign ++ Nat.repr (n / 100) ++
    String.mk ['.', Nat.digitChar (n / 10 % 10), Nat.digitChar (n % 10)]

/-- The JavaScript `x.toFixed(2)` used by `ProductInfo`
(`product?.price.toFixed(2)`). -/
def jsToFixed2 (x : ℚ) : String :=
  if belowFixedBound x then
    fixedFormat (if x.num < 0 then "-" else "") (round2 x)
  else jsLargeToString x

/-- Whether a rendered string ends in a decimal point followed by exactly
two digit characters: the shape "formatted to exactly two decimal places". -/
def hasTwoDecimals (s : String) : Bool :=
  match s.data.reverse with
  | c :: b :: '.' :: _ => b.isDigit && c.isDigit
  | _ => false

example : jsToFixed2 (mkRat 9999 100) = "99.99" := by decide
example : jsToFixed2 (mkRat 1 20) = "0.05" := by decide
example : jsToFixed2 (mkRat 0 1) = "0.00" := by decide
example : jsToFixed2 (mkRat 5 2) = "2.50" := by decide
example : jsToFixed2 (mkRat 1 1000) = "0.00" := by decide
example : jsToFixed2 (mkRat (-11) 2) = "-5.50" := by decide
example : jsToFixed2 (mkRat (10 ^ 21) 1) = "1e+21" := by decide
example : hasTwoDecimals "99.99" = true := by decide
example : hasTwoDecimals "1e+21" = false := by decide

/-! ## Entity types (src/types/product.ts)

JavaScript `number` fields are modelled as exact rationals; the optional
`brand?: string` field is an `Option`. -/

structure Product where
  id : ℚ
  title : String
  description : String
  category : String
  price : ℚ
  rating : ℚ
  stock : ℚ
  brand : Option String
  availabilityStatus : String
  returnPolicy : String
  thumbnail : String
  images : List String
deriving DecidableEq

/-- A JavaScript `Error` value as observed by this layer: an opaque value
carrying a human-readable message. -/
structure JsError where
  message : String
deriving DecidableEq

/-! ## The data-fetching coordinator contract (TanStack Query, manual mode)

The hooks bind a cache key and a producer to the coordinator; the
coordinator owns a per-key state that is one of pending-disabled (never
started), fetching, success or error.  With retries off (as the repository's
tests configure), a fetch settles directly to success or error. -/

/-- One element of a query key array such as `['product', id]`. -/
inductive QueryKeyPart where
  | str (s : String)
  | num (n : JSNum)
deriving DecidableEq

abbrev QueryKey := List QueryKeyPart

/-- A request to the (external) `productService` capability, identified by
which method is called and with which argument. -/
inductive ServiceRequest where
  | getProduct (id : JSNum)
  | getProducts
deriving DecidableEq

/-- The options object passed to `useQuery`: key, producer, `enabled` flag. -/
structure QueryConfig where
  queryKey : QueryKey
  queryFn : ServiceRequest
  enabled : Bool
deriving DecidableEq

/-- The `useProduct` hook's query configuration
(src/hooks/useProduct.ts:5-14): `id = Number(productId)`,
`queryKey: ['product', id]`, `queryFn: () => productService.getProduct(id)`,
`enabled: !!id`. -/
def useProductConfig (productId : String) : QueryConfig :=
  let id := jsNumber productId
  { queryKey := [.str "product", .num id]
    queryFn := .getProduct id
    enabled := id.truthy }

/-- Coordinator state of the product query: `idle` is a disabled query that
never started (status pending, not fetching); a started fetch is in flight,
then resolves or rejects. -/
inductive QueryState where
  | idle
  | fetching
  | success (d : Product)
  | failure (e : JsError)
deriving DecidableEq

/-- The manual-mode result triple
`{data: T | undefined, isLoading: boolean, error: Error | undefined}`. -/
structure UseQueryResult (T : Type) where
  data : Option T
  isLoading : Bool
  error : Option JsError
deriving DecidableEq

/-- Observable `useQuery` result for each coordinator state (TanStack Query
v5 manual mode: `isLoading = isPending && isFetching`, so a disabled query
reports `isLoading = false`; the error value is stored unchanged). -/
def queryResult : QueryState → UseQueryResult Product
  | .idle => ⟨none, false, none⟩
  | .fetching => ⟨none, true, none⟩
  | .success d => ⟨some d, false, none⟩
  | .failure e => ⟨none, false, some e⟩

/-- The `useQuery` call: the hook observes the coordinator's state for its
configuration. -/
def useQuery (_cfg : QueryConfig) (st : QueryState) : UseQueryResult Product :=
  queryResult st

/-- The `useProduct` hook (src/hooks/useProduct.ts). -/
def useProduct (productId : String) (st : QueryState) : UseQueryResult Product :=
  useQuery (useProductConfig productId) st

/-- States of one route activation of the product query, together with the
list of service requests issued so far.  A mounted enabled query starts its
fetch (issuing the producer's request); a disabled query stays idle and
issues nothing; an in-flight fetch either resolves or rejects, and (retries
off) the rejection value is stored as the query's error. -/
inductive Reach (cfg : QueryConfig) : QueryState → List ServiceRequest → Prop where
  | mount_on : cfg.enabled = true → Reach cfg .fetching [cfg.queryFn]
  | mount_off : cfg.enabled = false → Reach cfg .idle []
  | resolve (d : Product) {rs : List ServiceRequest} :
      Reach cfg .fetching rs → Reach cfg (.success d) rs
  | reject (e : JsError) {rs : List ServiceRequest} :
      Reach cfg .fetching rs → Reach cfg (.failure e) rs

/-! ## The product page (src/routes/products/$productId.tsx)

`ProductPage` renders three independent conditionals inside `Layout.Main`:
`{isLoading && <p>Loading product...</p>}`,
`{error && <p>Error loading product: {error.message}</p>}`,
`{product && <ProductDetail />}`. -/

/-- What the product page shows: whether the loading indicator is visible,
the inline error text if visible, and whether the resolved content
(`ProductDetail`) is visible. -/
structure PageRender where
  showsLoading : Bool
  errorText : Option String
  showsContent : Bool
deriving DecidableEq

/-- The `ProductPage` component's rendering as a function of the hook's
manual-mode result. -/
def renderProductPage (r : UseQueryResult Product) : PageRender :=
  { showsLoading := r.isLoading
    errorText := r.error.map (fun e => "Error loading product: " ++ e.message)
    showsContent := r.data.isSome }

/-- How many of the three mutually-exclusive-by-spec pieces of content are
visible at once. -/
def visibleCount (pr : PageRender) : ℕ :=
  (if pr.showsLoading then 1 else 0) + (if pr.errorText.isSome then 1 else 0) +
    (if pr.showsContent then 1 else 0)

/-! ## Consumer components -/

/-- Text slots emitted by `ProductInfo`. -/
structure InfoRender where
  title : String
  price : String
  description : String
deriving DecidableEq

/-- JavaScript optional chaining `v?.rest`: when `v` is nullish the entire
member chain short-circuits to `undefined` without evaluating `rest`;
otherwise `rest` is evaluated (and may throw). -/
def jsOptChain (v : Option α) (f : α → Except JsError β) : Except JsError (Option β) :=
  match v with
  | none => .ok none
  | some x => (f x).map some

/-- React text rendering of a possibly-`undefined` string expression:
`undefined` renders as nothing. -/
def jsUndefToText (v : Option String) : String := v.getD ""

/-- The `ProductInfo` component (src/components/ProductInfo/index.tsx):
`<h1>{product?.title}</h1>`, `<p>${product?.price.toFixed(2)}</p>`,
`<p>{product?.description}</p>`, evaluated with JavaScript
optional-chaining semantics. -/
def renderProductInfo (product : Option Product) : Except JsError InfoRender := do
  let titleTxt ← jsOptChain product (fun p => .ok p.title)
  let priceTxt ← jsOptChain product (fun p => .ok (jsToFixed2 p.price))
  let descTxt ← jsOptChain product (fun p => .ok p.description)
  .ok { title := jsUndefToText titleTxt
        price := "$" ++ jsUndefToText priceTxt
        description := jsUndefToText descTxt }

/-- Modelled from the spec: the `ProductImage` component's source file is not
under src/ (only its tests and the prompt guide reference it).  Per the spec,
"for all products with `images.length === 0`, the image panel's displayed
source equals `thumbnail`; otherwise it equals `images[0]`". -/
def productImageSrc (p : Product) : String :=
  match p.images with
  | [] => p.thumbnail
  | img :: _ => img

/-- The mock product used throughout the repository's tests
(`mockProduct` in src/components/ProductDetail tests): price `99.99`,
rating `4.5`, two images. -/
def mockProduct : Product :=
  { id := 1
    title := "Test Product"
    description := "This is a test product description"
    category := "Electronics"
    price := mkRat 9999 100
    rating := mkRat 9 2
    stock := 50
    brand := some "Test Brand"
    availabilityStatus := "In Stock"
    returnPolicy := "30 days"
    thumbnail := "https://example.com/thumbnail.jpg"
    images := ["https://example.com/image1.jpg", "https://example.com/image2.jpg"] }

/-- The tests' `productWithOnlyThumbnail`: `mockProduct` with `images: []`. -/
def mockProductNoImages : Product := { mockProduct with images := [] }

/-- A product whose price is at the `toFixed` exponential-notation boundary,
`10^21` (a value float64 represents exactly). -/
def hugePriceProduct : Product := { mockProduct with price := mkRat (10 ^ 21) 1 }

instance {ε α : Type} [DecidableEq ε] [DecidableEq α] : DecidableEq (Except ε α) :=
  fun a b =>
    match a, b with
    | .ok x, .ok y =>
      if h : x = y then .isTrue (h ▸ rfl) else .isFalse (fun hh => h (Except.ok.inj hh))
    | .error x, .error y =>
      if h : x = y then .isTrue (h ▸ rfl) else .isFalse (fun hh => h (Except.error.inj hh))
    | .ok _, .error _ => .isFalse (fun hh => Except.noConfusion hh)
    | .error _, .ok _ => .isFalse (fun hh => Except.noConfusion hh)

/-! ## Helper lemmas -/

theorem digitChar_mod_ten_isDigit (m : ℕ) : (Nat.digitChar (m % 10)).isDigit = true := by
  have h : m % 10 < 10 := Nat.mod_lt _ (by norm_num)
  revert h
  generalize m % 10 = k
  intro h
  interval_cases k <;> decide

theorem hasTwoDecimals_fixedFormat (sign : String) (n : ℕ) :
    hasTwoDecimals (fixedFormat sign n) = true := by
  unfold hasTwoDecimals fixedFormat
  simp [digitChar_mod_ten_isDigit]

theorem isJsWs_eq_false_of_isDigit {c : Char} (h : c.isDigit = true) :
    isJsWs c = false := by
  simp only [isJsWs, Bool.or_eq_false_iff, beq_eq_false_iff_ne]
  refine ⟨⟨⟨⟨⟨?_, ?_⟩, ?_⟩, ?_⟩, ?_⟩, ?_⟩ <;> rintro rfl <;> exact absurd h (by decide)

theorem beq_dot_eq_false_of_isDigit {c : Char} (h : c.isDigit = true) :
    (c == '.') = false := by
  rw [beq_eq_false_iff_ne]
  rintro rfl
  exact absurd h (by decide)

theorem beq_exp_eq_false_of_isDigit {c : Char} (h : c.isDigit = true) :
    (c == 'e' || c == 'E') = false := by
  simp only [Bool.or_eq_false_iff, beq_eq_false_iff_ne]
  constructor <;> rintro rfl <;> exact absurd h (by decide)

theorem dropWhile_eq_self_of_forall {p : Char → Bool} :
    ∀ {cs : List Char}, (∀ c ∈ cs, p c = false) → cs.dropWhile p = cs
  | [], _ => rfl
  | a :: t, h => by
    rw [List.dropWhile_cons_of_neg]
    simp [h a (List.mem_cons_self a t)]

theorem jsTrim_of_digits {cs : List Char} (h : cs.all Char.isDigit = true) :
    jsTrim cs = cs := by
  have hmem : ∀ c ∈ cs, c.isDigit = true := by simpa [List.all_eq_true] using h
  unfold jsTrim
  rw [dropWhile_eq_self_of_forall (fun c hc => isJsWs_eq_false_of_isDigit (hmem c hc)),
    dropWhile_eq_self_of_forall
      (fun c hc => isJsWs_eq_false_of_isDigit (hmem c (List.mem_reverse.mp hc))),
    List.reverse_reverse]

theorem parseMantissa_of_digits {cs : List Char} (h1 : cs ≠ [])
    (h2 : cs.all Char.isDigit = true) :
    parseMantissa cs = some (digitsToNat cs, 0) := by
  have hmem : ∀ c ∈ cs, c.isDigit = true := by simpa [List.all_eq_true] using h2
  have hie : cs.isEmpty = false := by
    cases cs with
    | nil => exact absurd rfl h1
    | cons a t => rfl
  unfold parseMantissa
  rw [List.span_eq_take_drop,
    List.takeWhile_eq_self_iff.mpr
      (fun c hc => by simp [beq_dot_eq_false_of_isDigit (hmem c hc)]),
    List.dropWhile_eq_nil_iff.mpr
      (fun c hc => by simp [beq_dot_eq_false_of_isDigit (hmem c hc)])]
  rw [show (match (cs, ([] : List Char)) with
    | (ip, []) =>
      if !ip.isEmpty && ip.all Char.isDigit then some (digitsToNat ip, 0) else none
    | (ip, _ :: fp) =>
      if (!ip.isEmpty || !fp.isEmpty) && ip.all Char.isDigit && fp.all Char.isDigit then
        some (digitsToNat (ip ++ fp), fp.length)
      else none)
    = if !cs.isEmpty && cs.all Char.isDigit then some (digitsToNat cs, 0) else none from rfl]
  rw [hie, h2]
  rfl

theorem parseUnsignedDecCore_of_digits {cs : List Char} (h1 : cs ≠ [])
    (h2 : cs.all Char.isDigit = true) :
    parseUnsignedDecCore cs = some (decValue (digitsToNat cs) 0) := by
  have hmem : ∀ c ∈ cs, c.isDigit = true := by simpa [List.all_eq_true] using h2
  unfold parseUnsignedDecCore
  rw [List.span_eq_take_drop,
    List.takeWhile_eq_self_iff.mpr
      (fun c hc => by simp [beq_exp_eq_false_of_isDigit (hmem c hc)]),
    List.dropWhile_eq_nil_iff.mpr
      (fun c hc => by simp [beq_exp_eq_false_of_isDigit (hmem c hc)])]
  rw [show (match (cs, ([] : List Char)) with
    | (m, []) => (parseMantissa m).map (fun p => decValue p.1 (-(p.2 : ℤ)))
    | (m, _ :: ex) => do
      let p ← parseMantissa m
      let ev ← parseSignedInt ex
      some (decValue p.1 (ev - (p.2 : ℤ))))
    = (parseMantissa cs).map (fun p => decValue p.1 (-(p.2 : ℤ))) from rfl]
  rw [parseMantissa_of_digits h1 h2]
  simp

theorem decValue_zero (n : ℕ) : decValue n 0 = mkRat n 1 := by
  simp [decValue]

theorem jsUnsigned_of_digits {cs : List Char} (h1 : cs ≠ [])
    (h2 : cs.all Char.isDigit = true) :
    jsUnsigned false cs = .num (mkRat (digitsToNat cs) 1) := by
  have hne : cs ≠ "Infinity".data := by
    intro heq
    rw [heq] at h2
    exact absurd h2 (by decide)
  unfold jsUnsigned
  rw [if_neg hne, parseUnsignedDecCore_of_digits h1 h2, decValue_zero]
  rfl

theorem beq_eq_false_of_isDigit_of_not {c d : Char} (h : c.isDigit = true)
    (hd : d.isDigit = false) : (c == d) = false := by
  rw [beq_eq_false_iff_ne]
  rintro rfl
  rw [h] at hd
  exact Bool.noConfusion hd

theorem jsNumberList_of_digits {cs : List Char} (h1 : cs ≠ [])
    (h2 : cs.all Char.isDigit = true) :
    jsNumberList cs = jsUnsigned false cs := by
  have hmem : ∀ c ∈ cs, c.isDigit = true := by simpa [List.all_eq_true] using h2
  rcases cs with _ | ⟨c, rest⟩
  · exact absurd rfl h1
  have hc : c.isDigit = true := hmem c (List.mem_cons_self _ _)
  have hp : (c == '+') = false := beq_eq_false_of_isDigit_of_not hc (by decide)
  have hm : (c == '-') = false := beq_eq_false_of_isDigit_of_not hc (by decide)
  rcases rest with _ | ⟨m, rest'⟩
  · simp [jsNumberList, hp, hm]
  have hmd : m.isDigit = true := hmem m (by simp)
  have hx : (m == 'x' || m == 'X') = false := by
    rw [beq_eq_false_of_isDigit_of_not hmd (by decide),
      beq_eq_false_of_isDigit_of_not hmd (by decide)]
    rfl
  have ho : (m == 'o' || m == 'O') = false := by
    rw [beq_eq_false_of_isDigit_of_not hmd (by decide),
      beq_eq_false_of_isDigit_of_not hmd (by decide)]
    rfl
  have hb : (m == 'b' || m == 'B') = false := by
    rw [beq_eq_false_of_isDigit_of_not hmd (by decide),
      beq_eq_false_of_isDigit_of_not hmd (by decide)]
    rfl
  simp [jsNumberList, hp, hm, hx, ho, hb]

theorem jsNumber_of_digits {s : String} (h1 : s.data ≠ [])
    (h2 : s.data.all Char.isDigit = true) :
    jsNumber s = .num (mkRat (digitsToNat s.data) 1) := by
  unfold jsNumber
  rw [jsTrim_of_digits h2, jsNumberList_of_digits h1 h2, jsUnsigned_of_digits h1 h2]

/-! ## Claims -/

/-- C1 (counterexample): the product page does NOT always render exactly one
of the loading indicator, the error message and the resolved content.  At
route parameter `"0"` the derived id is falsy, so the query is disabled
(`enabled: !!id`), `isLoading` is false, `error` and `data` are undefined,
and the page renders none of the three. -/
theorem productPage_renders_none_when_disabled :
    Reach (useProductConfig "0") .idle []
    ∧ visibleCount (renderProductPage (useProduct "0" .idle)) = 0 :=
  ⟨Reach.mount_off (by decide), by decide⟩

/-- C1 (amended): whenever the derived id is truthy — so the query is
enabled — every reachable fetch state renders exactly one of the loading
indicator, the error message and the resolved content. -/
theorem productPage_exactly_one_when_enabled (productId : String)
    (st : QueryState) (rs : List ServiceRequest)
    (hEn : (useProductConfig productId).enabled = true)
    (hr : Reach (useProductConfig productId) st rs) :
    visibleCount (renderProductPage (useProduct productId st)) = 1 := by
  cases hr with
  | mount_on h => rfl
  | mount_off h =>
    rw [hEn] at h
    exact Bool.noConfusion h
  | resolve d h => rfl
  | reject e h => rfl

theorem productPage_exactly_one_when_enabled_witness :
    (useProductConfig "1").enabled = true
    ∧ visibleCount (renderProductPage (useProduct "1" .fetching)) = 1 :=
  ⟨by decide,
    productPage_exactly_one_when_enabled "1" .fetching [(useProductConfig "1").queryFn]
      (by decide) (Reach.mount_on (by decide))⟩

/-- C2: for every route parameter, `useProduct` derives `id = Number(productId)`,
issues its query under the cache key `['product', id]` with producer
`getProduct(id)`, and returns the manual-mode triple
`{data: T | undefined, isLoading: boolean, error: Error | undefined}`:
`data` present exactly in the success state, `isLoading` true exactly while
fetching, `error` present exactly in the failure state. -/
theorem useProduct_config_and_manual_triple (productId : String) :
    (useProductConfig productId).queryKey = [.str "product", .num (jsNumber productId)]
    ∧ (useProductConfig productId).queryFn = .getProduct (jsNumber productId)
    ∧ useProduct productId .idle = ⟨none, false, none⟩
    ∧ useProduct productId .fetching = ⟨none, true, none⟩
    ∧ (∀ d, useProduct productId (.success d) = ⟨some d, false, none⟩)
    ∧ (∀ e, useProduct productId (.failure e) = ⟨none, false, some e⟩) :=
  ⟨rfl, rfl, rfl, rfl, fun _ => rfl, fun _ => rfl⟩

/-- C3: whenever the producer rejects with an error `e`, the hook surfaces
the very value `e` unchanged as its `error` field, and the page's inline
error text is `"Error loading product: "` followed by `e`'s message — so it
contains the message verbatim. -/
theorem useProduct_error_passthrough_verbatim (productId : String) (e : JsError)
    (rs : List ServiceRequest)
    (_hr : Reach (useProductConfig productId) (.failure e) rs) :
    (useProduct productId (.failure e)).error = some e
    ∧ (renderProductPage (useProduct productId (.failure e))).errorText
        = some ("Error loading product: " ++ e.message)
    ∧ ∃ pre post, "Error loading product: " ++ e.message = pre ++ e.message ++ post :=
  ⟨rfl, rfl, ⟨"Error loading product: ", "", by simp⟩⟩

theorem useProduct_error_passthrough_verbatim_witness :
    (useProduct "1" (.failure ⟨"Failed to fetch product"⟩)).error
      = some ⟨"Failed to fetch product"⟩
    ∧ (renderProductPage (useProduct "1" (.failure ⟨"Failed to fetch product"⟩))).errorText
      = some "Error loading product: Failed to fetch product" :=
  have h := useProduct_error_passthrough_verbatim "1" ⟨"Failed to fetch product"⟩ _
    (Reach.reject ⟨"Failed to fetch product"⟩ (Reach.mount_on (by decide)))
  ⟨h.1, h.2.1.trans (by decide)⟩

/-- C4: in manual mode, when the derived id is falsy the producer is never
invoked: no service request is issued in any reachable state of the route
activation. -/
theorem useProduct_no_request_when_id_falsy (productId : String)
    (st : QueryState) (rs : List ServiceRequest)
    (hfalsy : (jsNumber productId).truthy = false)
    (hr : Reach (useProductConfig productId) st rs) : rs = [] := by
  induction hr with
  | mount_on hEn =>
    rw [show (useProductConfig productId).enabled = (jsNumber productId).truthy from rfl,
      hfalsy] at hEn
    exact Bool.noConfusion hEn
  | mount_off hEn => rfl
  | resolve d _ ih => exact ih
  | reject e _ ih => exact ih

theorem useProduct_no_request_when_id_falsy_witness :
    (jsNumber "0").truthy = false ∧ ([] : List ServiceRequest) = [] :=
  ⟨by decide,
    useProduct_no_request_when_id_falsy "0" .idle [] (by decide)
      (Reach.mount_off (by decide))⟩

/-- C5 (counterexample): the info panel does NOT always show the price with
exactly two decimal places.  `toFixed(2)` falls back to exponential notation
for `|price| ≥ 10^21`: with price `10^21` the price slot reads `"$1e+21"`. -/
theorem productInfo_two_decimals_cex :
    renderProductInfo (some hugePriceProduct)
      = .ok { title := "Test Product", price := "$1e+21",
              description := "This is a test product description" }
    ∧ hasTwoDecimals "1e+21" = false := by
  constructor <;> decide

/-- C5 (amended): for every product whose price is below the `toFixed`
exponential-notation bound `10^21` in absolute value, the info panel shows
the title verbatim, `"$"` followed by the price formatted with exactly two
decimal places, and the description verbatim. -/
theorem productInfo_shows_title_price_description (p : Product)
    (h : belowFixedBound p.price) :
    renderProductInfo (some p)
      = .ok { title := p.title, price := "$" ++ jsToFixed2 p.price,
              description := p.description }
    ∧ hasTwoDecimals (jsToFixed2 p.price) = true := by
  refine ⟨rfl, ?_⟩
  unfold jsToFixed2
  rw [if_pos h]
  exact hasTwoDecimals_fixedFormat _ _

theorem productInfo_shows_title_price_description_witness :
    renderProductInfo (some mockProduct)
      = .ok { title := "Test Product", price := "$99.99",
              description := "This is a test product description" }
    ∧ hasTwoDecimals (jsToFixed2 mockProduct.price) = true :=
  have h := productInfo_shows_title_price_description mockProduct (by decide)
  ⟨h.1.trans (by decide), h.2⟩

/-- C6 (counterexample): the hook does NOT parse the route parameter to an
integer; it converts it with `Number()`.  At parameter `"1.5"` the derived
id is the non-integer `3/2`, and the producer is called with that value. -/
theorem useProduct_id_not_integer_cex :
    jsNumber "1.5" = .num (mkRat 3 2)
    ∧ (jsNumber "1.5").isIntegral = false
    ∧ (useProductConfig "1.5").queryFn = .getProduct (.num (mkRat 3 2)) := by
  refine ⟨by decide, by decide, by decide⟩

/-- C6 (amended): the hook converts the parameter with JavaScript `Number()`
semantics rather than integer parsing; for every non-empty all-digit
parameter (the canonical product-id segments) the derived id is the integer
value of the digits, but a general parameter may convert to a non-integer. -/
theorem useProduct_integer_id_for_digit_params (s : String)
    (h1 : s.data ≠ []) (h2 : s.data.all Char.isDigit = true) :
    jsNumber s = .num (mkRat (digitsToNat s.data) 1)
    ∧ (jsNumber s).isIntegral = true := by
  have hmain := jsNumber_of_digits h1 h2
  refine ⟨hmain, ?_⟩
  rw [hmain]
  simp [JSNum.isIntegral, Rat.mkRat_one]

theorem useProduct_integer_id_for_digit_params_witness :
    jsNumber "42" = .num (mkRat 42 1) ∧ (jsNumber "42").isIntegral = true :=
  have h := useProduct_integer_id_for_digit_params "42" (by decide) (by decide)
  ⟨h.1.trans (by decide), h.2⟩

/-- C7: for every resolved product, the image panel's displayed source is
the thumbnail when `images` is empty and `images[0]` otherwise. -/
theorem productImage_src_spec (p : Product) :
    (p.images = [] → productImageSrc p = p.thumbnail)
    ∧ (∀ img rest, p.images = img :: rest → productImageSrc p = img) := by
  constructor
  · intro h
    simp [productImageSrc, h]
  · intro img rest h
    simp [productImageSrc, h]

theorem productImage_src_spec_witness :
    productImageSrc mockProductNoImages = "https://example.com/thumbnail.jpg"
    ∧ productImageSrc mockProduct = "https://example.com/image1.jpg" :=
  ⟨(productImage_src_spec mockProductNoImages).1 rfl,
    (productImage_src_spec mockProduct).2 "https://example.com/image1.jpg" _ rfl⟩

/-- C8: for every route parameter whose numeric conversion is `0` or `NaN`,
the query is permanently disabled: every reachable state is the idle state,
no service request is ever issued, no error is ever produced and `data`
stays undefined. -/
theorem useProduct_disabled_zero_or_nan (productId : String)
    (st : QueryState) (rs : List ServiceRequest)
    (h : jsNumber productId = .num 0 ∨ jsNumber productId = .nan)
    (hr : Reach (useProductConfig productId) st rs) :
    st = .idle ∧ rs = []
    ∧ (useProduct productId st).data = none
    ∧ (useProduct productId st).error = none := by
  have hfalsy : (jsNumber productId).truthy = false := by
    rcases h with h | h <;> rw [h] <;> decide
  induction hr with
  | mount_on hEn =>
    rw [show (useProductConfig productId).enabled = (jsNumber productId).truthy from rfl,
      hfalsy] at hEn
    exact Bool.noConfusion hEn
  | mount_off hEn => exact ⟨rfl, rfl, rfl, rfl⟩
  | resolve d _ ih => exact QueryState.noConfusion ih.1
  | reject e _ ih => exact QueryState.noConfusion ih.1

theorem useProduct_disabled_zero_or_nan_witness :
    jsNumber "abc" = JSNum.nan
    ∧ ((.idle : QueryState) = .idle ∧ ([] : List ServiceRequest) = []
        ∧ (useProduct "abc" .idle).data = none
        ∧ (useProduct "abc" .idle).error = none) :=
  ⟨by decide,
    useProduct_disabled_zero_or_nan "abc" .idle [] (Or.inr (by decide))
      (Reach.mount_off (by decide))⟩

/-- C9: when the hook's data is undefined, `ProductInfo` still evaluates
without throwing — the optional chain `product?.price.toFixed(2)`
short-circuits — and renders empty title and description slots and a price
slot containing only `"$"`. -/
theorem productInfo_total_without_data :
    renderProductInfo none = .ok { title := "", price := "$", description := "" } := by
  decide

/-- C10: the cache key (indeed the whole query configuration: key, producer
and enabled flag) depends only on the numeric conversion of the route
parameter, not on its string form; parameters with equal numeric value share
one configuration, hence one cache entry and one producer invocation. -/
theorem useProduct_key_depends_only_on_numeric_value (s₁ s₂ : String)
    (h : jsNumber s₁ = jsNumber s₂) :
    useProductConfig s₁ = useProductConfig s₂ := by
  simp only [useProductConfig, h]

theorem useProduct_key_depends_only_on_numeric_value_witness :
    jsNumber "01" = jsNumber "1"
    ∧ jsNumber "1.0" = jsNumber "1"
    ∧ useProductConfig "01" = useProductConfig "1"
    ∧ useProductConfig "1.0" = useProductConfig "1"
    ∧ (useProductConfig "1").queryKey = [.str "product", .num (.num 1)] :=
  ⟨by decide, by decide,
    useProduct_key_depends_only_on_numeric_value "01" "1" (by decide),
    useProduct_key_depends_only_on_numeric_value "1.0" "1" (by decide),
    by decide⟩

end ProductApp
